import Mathlib

/-!
Shallow embedding of the JX repository's retry/orchestration core:
`common.py` (solve_captcha, login_with_retry, run_with_retries, send_wxpush,
send_wxpusher), `scheduler.py` (run_guarded) and the per-script
`solve_captcha` / `login_unlimited` of `auto_checkin.py` and
`auto_daily_report.py`.

Collaborator behaviour (page, classifier, notification sink) is supplied by
explicit attempt-indexed environments.  Wall-clock time is modelled by
environment-given durations of the awaited operations, accumulated on an
explicit clock measured from function entry (mirroring `time.monotonic()`).
Python exceptions from collaborators appear as explicit outcome constructors;
a function that could propagate an exception to its caller has return type
`Except String _`, and every `try/except` of the source is an explicit match.
-/

namespace JX

/-- Outcome of one invocation of the task coroutine passed to
`run_with_retries` (`common.py` line 236): it either returns a boolean
or raises. -/
inductive TaskOutcome
  | ok : Bool → TaskOutcome
  | raise : TaskOutcome
deriving DecidableEq

/-- The `success` flag after the try/except of `common.py` lines 235-239:
a raising task is recorded as a failed attempt (`success = False`). -/
def attemptResult (task : ℕ → TaskOutcome) (attempt : ℕ) : Bool :=
  match task attempt with
  | .ok b => b
  | .raise => false

/-- Python `int()` applied to a rational: truncation toward zero. -/
def pyTrunc (q : ℚ) : ℤ :=
  if 0 ≤ q then ⌊q⌋ else ⌈q⌉

/-- The backoff delay computed at `common.py` line 250:
`max(1, int(delay_seconds * (backoff_factor ** (attempt - 1))))`,
`attempt` 1-based. -/
def wait_seconds (delay_seconds : ℤ) (backoff_factor : ℚ) (attempt : ℕ) : ℤ :=
  max 1 (pyTrunc ((delay_seconds : ℚ) * backoff_factor ^ (attempt - 1)))

/-- Modelled from the spec: the BackoffPolicy delay formula of spec sections 3
and 8, `delay(attempt) = max(1, baseDelay * factor^(attempt-1))`, as an exact
rational (no integer truncation).  Used only to compare the spec's formula
with the code's `wait_seconds`. -/
def specDelay (baseDelay : ℤ) (factor : ℚ) (attempt : ℕ) : ℚ :=
  max 1 ((baseDelay : ℚ) * factor ^ (attempt - 1))

/-- Result of `run_with_retries`: the returned pair plus an execution trace
(how many times the task coroutine was invoked and the sequence of backoff
waits that were slept). -/
structure RetryOutcome where
  succeeded : Bool
  attemptsUsed : ℕ
  calls : ℕ
  waits : List ℤ
deriving DecidableEq, Repr

/-- The `for attempt in range(1, attempts + 1)` loop of `common.py`
lines 233-255.  `remaining` is the number of loop iterations still allowed
(`attempts - attempt + 1`); `attempt` is the 1-based attempt counter;
`calls` and `waits` accumulate the trace. -/
def retryLoopAux (task : ℕ → TaskOutcome) (delay_seconds : ℤ) (backoff_factor : ℚ)
    (attempts : ℕ) : (remaining attempt calls : ℕ) → List ℤ → Except String RetryOutcome
  | 0, _, calls, waits => .ok ⟨false, attempts, calls, waits⟩
  | remaining + 1, attempt, calls, waits =>
    if attemptResult task attempt then
      .ok ⟨true, attempt, calls + 1, waits⟩
    else if remaining = 0 then
      -- `if attempt >= attempts: break` then `return False, attempts`
      .ok ⟨false, attempts, calls + 1, waits⟩
    else
      retryLoopAux task delay_seconds backoff_factor attempts remaining (attempt + 1)
        (calls + 1) (waits ++ [wait_seconds delay_seconds backoff_factor attempt])

/-- `common.py` `run_with_retries` (lines 223-255): clamps
`attempts = max(1, max_attempts)` and runs the attempt loop.  The
action name and logger are pure logging and are omitted. -/
def run_with_retries (task : ℕ → TaskOutcome) (max_attempts delay_seconds : ℤ)
    (backoff_factor : ℚ) : Except String RetryOutcome :=
  let attempts := (max 1 max_attempts).toNat
  retryLoopAux task delay_seconds backoff_factor attempts attempts 1 0 []

/-- Number of task invocations recorded in a `run_with_retries` result
(0 for a propagated fault, which never occurs). -/
def callsOf : Except String RetryOutcome → ℕ
  | .ok r => r.calls
  | .error _ => 0

/-- Collaborator behaviour for `common.py` `solve_captcha`, indexed by the
0-based loop attempt: whether the initial `wait_for_selector` succeeds,
whether `query_selector` finds the image element, whether `screenshot`
raises, the `src` attribute served on the fallback path, whether the OCR
classifier is configured, and the classifier's raw text per attempt. -/
structure CaptchaEnv where
  selectorFound : Bool
  imgPresent : ℕ → Bool
  screenshotFails : ℕ → Bool
  src : ℕ → Option String
  ocrPresent : Bool
  ocrRaw : ℕ → String

/-- The digit filter of `common.py` line 53:
`"".join(ch for ch in raw_text if ch.isdigit())`. -/
def digitFilter (s : String) : String :=
  String.mk (s.data.filter Char.isDigit)

/-- Prefix test on character lists (helper for `pyStartsWith`). -/
def charListPrefix : List Char → List Char → Bool
  | [], _ => true
  | _ :: _, [] => false
  | c :: cs, d :: ds => c = d && charListPrefix cs ds

/-- Python `str.startswith`, on the character-list model of strings. -/
def pyStartsWith (s pre : String) : Bool :=
  charListPrefix pre.data s.data

/-- Image acquisition of `common.py` lines 40-49: a successful screenshot
yields bytes; on a screenshot fault the code falls back to the `src`
attribute, which must be present and start with `data:image`.  The byte
content itself is irrelevant to the embedding (the classifier is an
attempt-indexed oracle), so acquired bytes are `Unit`. -/
def imgData (env : CaptchaEnv) (attempt : ℕ) : Option Unit :=
  if env.screenshotFails attempt then
    match env.src attempt with
    | none => none
    | some s => if pyStartsWith s "data:image" then some () else none
  else
    some ()

/-- Result of `common.py` `solve_captcha`: the returned string plus an
execution trace (how many challenge refreshes were triggered and how many
classifier calls were made). -/
structure SolveResult where
  text : String
  refreshes : ℕ
  ocrCalls : ℕ
deriving DecidableEq, Repr

/-- The `for attempt in range(max_attempts)` loop of `common.py`
lines 34-71.  `remaining` counts iterations still allowed, `attempt` is the
0-based attempt index.  A rejected classification triggers exactly one
refresh action (the click at line 62; a fault while clicking is caught and
does not change control flow). -/
def solveLoopAux (env : CaptchaEnv) :
    (remaining attempt refreshes ocrCalls : ℕ) → SolveResult
  | 0, _, refreshes, ocrCalls => ⟨"", refreshes, ocrCalls⟩
  | remaining + 1, attempt, refreshes, ocrCalls =>
    if env.imgPresent attempt then
      match imgData env attempt with
      | none => ⟨"", refreshes, ocrCalls⟩
      | some _ =>
        if env.ocrPresent then
          let filtered := digitFilter (env.ocrRaw attempt)
          if filtered.length = 4 then
            ⟨filtered, refreshes, ocrCalls + 1⟩
          else
            solveLoopAux env remaining (attempt + 1) (refreshes + 1) (ocrCalls + 1)
        else
          ⟨"", refreshes, ocrCalls⟩
    else
      ⟨"", refreshes, ocrCalls⟩

/-- `common.py` `solve_captcha` (lines 26-71): wait for the captcha image,
then classify/filter/refresh for up to `max_attempts` attempts. -/
def solve_captcha (env : CaptchaEnv) (max_attempts : ℕ) : SolveResult :=
  if env.selectorFound then
    solveLoopAux env max_attempts 0 0 0
  else
    ⟨"", 0, 0⟩

/-- Collaborator behaviour and operation durations for `common.py`
`login_with_retry`, indexed by the 1-based login attempt.  `navDur` is the
time consumed by the initial `page.goto` plus the 2-second settle sleep;
`bodyDur attempt` is the time consumed by the whole body of that attempt
(fills, captcha solving, submission, settle sleeps, or the caught fault
path); `bodySuccess attempt` tells whether the attempt ends with
`page.url != login_url` (every other body outcome — empty captcha, unchanged
URL, caught fault — continues the loop). -/
structure LoginEnv where
  navFails : Bool
  navDur : ℕ
  bodySuccess : ℕ → Bool
  bodyDur : ℕ → ℕ

/-- Result of `login_with_retry`: the returned boolean plus an execution
trace (number of credential-submission attempts performed and number of
initial navigations issued). -/
structure LoginResult where
  ok : Bool
  attempts : ℕ
  navs : ℕ
deriving DecidableEq, Repr

/-- The clock value `time.monotonic() - start_ts` after the initial
navigation and the first `n` attempt bodies; `start_ts` is taken at entry
into `login_with_retry` (`common.py` line 85), before the navigation. -/
def clockAfter (env : LoginEnv) : ℕ → ℕ
  | 0 => env.navDur
  | n + 1 => clockAfter env n + env.bodyDur (n + 1)

/-- The `while attempt < max_attempts and (time.monotonic() - start_ts) <
total_timeout` loop of `common.py` lines 95-139.  `remaining` is
`max_attempts - attempt`; `clock` is the elapsed time since `start_ts`. -/
def loginLoopAux (env : LoginEnv) (total_timeout : ℕ) :
    (remaining attempt clock : ℕ) → Bool × ℕ
  | 0, attempt, _ => (false, attempt)
  | remaining + 1, attempt, clock =>
    if clock < total_timeout then
      if env.bodySuccess (attempt + 1) then
        (true, attempt + 1)
      else
        loginLoopAux env total_timeout remaining (attempt + 1)
          (clock + env.bodyDur (attempt + 1))
    else
      (false, attempt)

/-- `common.py` `login_with_retry` (lines 74-141): `start_ts` is taken at
function entry, then the initial navigation runs (a navigation fault
returns `False` at once, before any attempt), then the dual-bounded
attempt loop starts with the navigation's duration already on the clock. -/
def login_with_retry (env : LoginEnv) (max_attempts total_timeout : ℕ) : LoginResult :=
  if env.navFails then
    ⟨false, 0, 1⟩
  else
    let r := loginLoopAux env total_timeout max_attempts 0 env.navDur
    ⟨r.1, r.2, 1⟩

/-- Modelled from the spec: `login_with_retry` as the claim describes it,
with the wall-clock deadline measured from entry into the `PageLoaded`
state, i.e. from completion of the initial navigation — the attempt loop
starts with a zero clock and the navigation's duration is not charged
against `total_timeout`.  Used only to compare the spec's deadline
semantics with the code's. -/
def login_with_retry_specDeadline (env : LoginEnv) (max_attempts total_timeout : ℕ) :
    LoginResult :=
  if env.navFails then
    ⟨false, 0, 1⟩
  else
    let r := loginLoopAux env total_timeout max_attempts 0 0
    ⟨r.1, r.2, 1⟩

/-- Collaborator behaviour for the per-script `login_unlimited`
(`auto_checkin.py` lines 80-148, `auto_daily_report.py` lines 73-132; the
two are identical in control flow), indexed by the 1-based attempt:
whether the attempt body raises (caught at the inner except), the string
returned by the script's `solve_captcha`, and whether the page URL differs
from the login URL after submission. -/
structure UnlimEnv where
  navFails : Bool
  bodyFaults : ℕ → Bool
  captcha : ℕ → String
  urlChanged : ℕ → Bool

/-- One iteration of the `while True` body of `login_unlimited`: returns
`(some verdict)` when the function returns, `none` to continue looping,
together with whether a credential/captcha submission was performed. -/
def unlimBody (env : UnlimEnv) (attempt : ℕ) : Option Bool × Bool :=
  if env.bodyFaults attempt then
    (none, false)
  else if env.captcha attempt = "" then
    (none, false)          -- reload and continue, nothing submitted
  else if env.urlChanged attempt then
    (some true, true)      -- submitted, URL changed: return True
  else
    (none, true)           -- submitted, URL unchanged: retry

/-- The `while True` loop of `login_unlimited`, indexed by fuel: `none`
means the loop is still running after `fuel` iterations (the source loop
has no attempt bound and no deadline). -/
def unlimLoop (env : UnlimEnv) : (fuel attempt : ℕ) → Option Bool
  | 0, _ => none
  | fuel + 1, attempt =>
    match (unlimBody env (attempt + 1)).1 with
    | some b => some b
    | none => unlimLoop env fuel (attempt + 1)

/-- Per-script `login_unlimited`: a navigation fault is caught by the outer
except and returns `False`; otherwise the unbounded attempt loop runs.
`none` means no return has happened within `fuel` iterations. -/
def login_unlimited (env : UnlimEnv) (fuel : ℕ) : Option Bool :=
  if env.navFails then some false else unlimLoop env fuel 0

/-- The proposition that a `login_unlimited` run returns at all: some
finite number of loop iterations suffices for it to produce a verdict. -/
def UnlimTerminates (env : UnlimEnv) : Prop :=
  ∃ fuel, (login_unlimited env fuel).isSome

/-- Collaborator behaviour for the per-script `solve_captcha`
(`auto_checkin.py` lines 49-78, `auto_daily_report.py` lines 47-71):
whether `wait_for_selector` succeeds, whether the image element is found,
the `src` attribute, whether the OCR classifier is configured, and the
classifier's raw output. -/
structure ScriptCaptchaEnv where
  selectorOk : Bool
  imgPresent : Bool
  src : Option String
  ocrPresent : Bool
  ocrRaw : String

namespace AutoCheckin

/-- `auto_checkin.py` `AutoCheckin.solve_captcha` (lines 49-78): acquire the
image via the `src` attribute and return the classifier's output verbatim —
no digit filtering and no length check. -/
def solve_captcha (env : ScriptCaptchaEnv) : String :=
  if env.selectorOk then
    if env.imgPresent then
      match env.src with
      | none => ""
      | some s =>
        if pyStartsWith s "data:image" then
          if env.ocrPresent then env.ocrRaw else ""
        else ""
    else ""
  else ""

end AutoCheckin

namespace AutoDailyReport

/-- `auto_daily_report.py` `AutoDailyReport.solve_captcha` (lines 47-71):
identical control flow to the checkin version — the classifier's raw
output is returned with no validation. -/
def solve_captcha (env : ScriptCaptchaEnv) : String :=
  if env.selectorOk then
    if env.imgPresent then
      match env.src with
      | none => ""
      | some s =>
        if pyStartsWith s "data:image" then
          if env.ocrPresent then env.ocrRaw else ""
        else ""
    else ""
  else ""

end AutoDailyReport

/-- Behaviour of the coroutine bound to a scheduler trigger: it either
completes or raises an internal fault. -/
inductive TaskBeh
  | ok
  | raise
deriving DecidableEq

/-- Result of `run_guarded`: whether the bound task body was executed and
the state of the exclusion guard right after the call completes. -/
structure GuardResult where
  ran : Bool
  lockAfter : Bool
deriving DecidableEq, Repr

/-- `scheduler.py` `run_guarded` (lines 18-31): if the guard is held the
firing is skipped outright; otherwise the guard is acquired, the coroutine
runs with every fault caught by the except, and the `async with` releases
the guard on every exit path. -/
def run_guarded (locked : Bool) (task : TaskBeh) : Except String GuardResult :=
  if locked then
    .ok ⟨false, locked⟩
  else
    match task with
    | .ok => .ok ⟨true, false⟩
    | .raise => .ok ⟨true, false⟩

/-- Behaviour of one notification sink call: a response whose success test
passes (`resp.ok` for WXPush, `code == 1000` for WxPusher), a response
failing it, or a raised transport/parse fault. -/
inductive SinkResp
  | resp : Bool → SinkResp
  | raise : SinkResp
deriving DecidableEq

/-- Result of a notification send: number of sink calls performed and
whether delivery succeeded. -/
structure PushResult where
  calls : ℕ
  delivered : Bool
deriving DecidableEq, Repr

/-- Python `str.rstrip("/")`: drop every trailing slash. -/
def rstripSlash (s : String) : String :=
  String.mk ((s.data.reverse.dropWhile (fun c => c = '/')).reverse)

/-- The `for attempt in range(1, max_retries + 1)` delivery loop shared by
`send_wxpush` (`common.py` lines 168-178) and `send_wxpusher` (lines
208-218): a passing response returns at once, a failing response or a
caught fault sleeps and retries, exhaustion falls through to a log line. -/
def pushLoopAux (sink : ℕ → SinkResp) (max_retries : ℕ) :
    (remaining attempt : ℕ) → Except String PushResult
  | 0, _ => .ok ⟨max_retries, false⟩
  | remaining + 1, attempt =>
    match sink attempt with
    | .resp true => .ok ⟨attempt, true⟩
    | .resp false => pushLoopAux sink max_retries remaining (attempt + 1)
    | .raise => pushLoopAux sink max_retries remaining (attempt + 1)

/-- `common.py` `send_wxpush` (lines 144-180): environment variables
`WXPUSH_URL` / `WXPUSH_TOKEN` / `WXPUSH_USERID` are read with a `""`
default, the base URL is right-stripped of slashes, and a missing base URL
or token skips delivery with zero sink calls.  `wxpushUserid` only shapes
the payload and never affects control flow. -/
def send_wxpush (wxpushUrl wxpushToken wxpushUserid : Option String)
    (sink : ℕ → SinkResp) (max_retries : ℕ) : Except String PushResult :=
  let base_url := rstripSlash (wxpushUrl.getD "")
  let token := wxpushToken.getD ""
  let _payload_userid := wxpushUserid.getD ""
  if base_url = "" ∨ token = "" then
    .ok ⟨0, false⟩
  else
    pushLoopAux sink max_retries max_retries 1

/-- `common.py` `send_wxpusher` (lines 183-220): an empty app token or uid
skips delivery with zero sink calls (`if not app_token or not uid`). -/
def send_wxpusher (app_token uid : String) (sink : ℕ → SinkResp)
    (max_retries : ℕ) : Except String PushResult :=
  if app_token = "" ∨ uid = "" then
    .ok ⟨0, false⟩
  else
    pushLoopAux sink max_retries max_retries 1

/-- A `login_unlimited` collaborator on which every attempt runs cleanly but
the page URL never changes (the portal keeps rejecting the login). -/
def stubbornEnv : UnlimEnv :=
  ⟨false, fun _ => false, fun _ => "1234", fun _ => false⟩

/-- A `login_with_retry` collaborator whose initial navigation succeeds but
consumes the entire 300-unit time budget; every attempt body would succeed
instantly. -/
def slowNavEnv : LoginEnv :=
  ⟨false, 300, fun _ => true, fun _ => 0⟩

/-! ## Helper lemmas -/

lemma pyTrunc_nonpos {q : ℚ} (h : q ≤ 0) : pyTrunc q ≤ 0 := by
  unfold pyTrunc
  by_cases hq : 0 ≤ q
  · rw [if_pos hq]
    exact Int.floor_nonpos h
  · rw [if_neg hq]
    exact Int.ceil_le.mpr (by exact_mod_cast h)

lemma pyTrunc_mono {q r : ℚ} (h : q ≤ r) : pyTrunc q ≤ pyTrunc r := by
  unfold pyTrunc
  by_cases hq : 0 ≤ q
  · rw [if_pos hq, if_pos (le_trans hq h)]
    exact Int.floor_le_floor h
  · rw [if_neg hq]
    by_cases hr : 0 ≤ r
    · rw [if_pos hr]
      calc ⌈q⌉ ≤ 0 := Int.ceil_le.mpr (by exact_mod_cast le_of_not_le hq)
        _ ≤ ⌊r⌋ := Int.floor_nonneg.mpr hr
    · rw [if_neg hr]
      exact Int.ceil_le_ceil h

lemma pushLoopAux_ok (sink : ℕ → SinkResp) (m : ℕ) :
    ∀ remaining attempt, ∃ r, pushLoopAux sink m remaining attempt = .ok r := by
  intro remaining
  induction remaining with
  | zero =>
    intro attempt
    exact ⟨⟨m, false⟩, rfl⟩
  | succ n ih =>
    intro attempt
    cases hs : sink attempt with
    | resp b =>
      cases b with
      | true => exact ⟨⟨attempt, true⟩, by simp [pushLoopAux, hs]⟩
      | false =>
        obtain ⟨r, hr⟩ := ih (attempt + 1)
        exact ⟨r, by simp [pushLoopAux, hs, hr]⟩
    | raise =>
      obtain ⟨r, hr⟩ := ih (attempt + 1)
      exact ⟨r, by simp [pushLoopAux, hs, hr]⟩

lemma unlimLoop_stubborn : ∀ fuel attempt, unlimLoop stubbornEnv fuel attempt = none := by
  intro fuel
  induction fuel with
  | zero => intro attempt; rfl
  | succ n ih =>
    intro attempt
    simpa [unlimLoop, unlimBody, stubbornEnv] using ih (attempt + 1)

/-- A `login_with_retry` collaborator whose navigation and attempt bodies
each take one time unit and whose attempts never succeed. -/
def steadyFailEnv : LoginEnv :=
  ⟨false, 1, fun _ => false, fun _ => 1⟩

/-- A per-script captcha collaborator whose first classification filters to
3 digits and whose second is a clean 4-digit string. -/
def mixedCaptchaEnv : CaptchaEnv :=
  ⟨true, fun _ => true, fun _ => false, fun _ => none, true,
    fun a => if a = 0 then "12a" else "5678"⟩

/-- A per-script captcha collaborator whose classifier output contains
non-digits and is not 4 characters after filtering. -/
def oddCaptchaEnv : ScriptCaptchaEnv :=
  ⟨true, true, some "data:image/png;base64,AAA", true, "ab12!"⟩

/-- A `login_unlimited` collaborator whose first attempt body runs cleanly
with a non-empty (invalid-looking) captcha string and a URL change. -/
def submitEnv : UnlimEnv :=
  ⟨false, fun _ => false, fun _ => "ab12!", fun _ => true⟩

lemma loginLoopAux_spec (env : LoginEnv) (timeout : ℕ) :
    ∀ remaining attempt res n,
      loginLoopAux env timeout remaining attempt (clockAfter env attempt) = (res, n) →
      (attempt ≤ n ∧ n ≤ attempt + remaining) ∧
      (∀ a, attempt ≤ a → a < n → a < attempt + remaining ∧ clockAfter env a < timeout) ∧
      (res = false → n = attempt + remaining ∨ timeout ≤ clockAfter env n) := by
  intro remaining
  induction remaining with
  | zero =>
    intro attempt res n h
    rw [loginLoopAux] at h
    injection h with h1 h2
    subst h1
    subst h2
    exact ⟨⟨le_rfl, by omega⟩, fun a ha1 ha2 => absurd ha2 (by omega),
      fun _ => Or.inl (by omega)⟩
  | succ m ih =>
    intro attempt res n h
    rw [loginLoopAux] at h
    by_cases hc : clockAfter env attempt < timeout
    · rw [if_pos hc] at h
      by_cases hs : env.bodySuccess (attempt + 1) = true
      · rw [if_pos hs] at h
        injection h with h1 h2
        subst h1
        subst h2
        refine ⟨⟨by omega, by omega⟩, ?_, by simp⟩
        intro a ha1 ha2
        have ha : a = attempt := by omega
        subst ha
        exact ⟨by omega, hc⟩
      · rw [if_neg hs] at h
        have h2 : loginLoopAux env timeout m (attempt + 1)
            (clockAfter env (attempt + 1)) = (res, n) := h
        obtain ⟨⟨hb1, hb2⟩, hall, hfalse⟩ := ih (attempt + 1) res n h2
        refine ⟨⟨by omega, by omega⟩, ?_, ?_⟩
        · intro a ha1 ha2
          by_cases haeq : a = attempt
          · subst haeq
            exact ⟨by omega, hc⟩
          · obtain ⟨hx, hy⟩ := hall a (by omega) ha2
            exact ⟨by omega, hy⟩
        · intro hres
          rcases hfalse hres with h3 | h3
          · exact Or.inl (by omega)
          · exact Or.inr h3
    · rw [if_neg hc] at h
      injection h with h1 h2
      subst h1
      subst h2
      exact ⟨⟨le_rfl, by omega⟩, fun a ha1 ha2 => absurd ha2 (by omega),
        fun _ => Or.inr (le_of_not_lt hc)⟩

lemma solveLoopAux_calls_le (env : CaptchaEnv) :
    ∀ remaining attempt refreshes calls,
      (solveLoopAux env remaining attempt refreshes calls).ocrCalls ≤ calls + remaining := by
  intro remaining
  induction remaining with
  | zero =>
    intro attempt refreshes calls
    simp [solveLoopAux]
  | succ m ih =>
    intro attempt refreshes calls
    rw [solveLoopAux]
    split
    · split
      · simp
      · split
        · by_cases hlen : (digitFilter (env.ocrRaw attempt)).length = 4
          · simp [hlen]
          · have := ih (attempt + 1) (refreshes + 1) (calls + 1)
            simp [hlen]
            omega
        · simp
    · simp

lemma retryLoopAux_calls_le (task : ℕ → TaskOutcome) (d : ℤ) (f : ℚ) (attempts : ℕ) :
    ∀ remaining attempt calls waits,
      callsOf (retryLoopAux task d f attempts remaining attempt calls waits) ≤
        calls + remaining := by
  intro remaining
  induction remaining with
  | zero =>
    intro attempt calls waits
    simp [retryLoopAux, callsOf]
  | succ m ih =>
    intro attempt calls waits
    rw [retryLoopAux]
    split
    · simp [callsOf]
    · split
      · simp [callsOf]
      · exact le_trans (ih (attempt + 1) (calls + 1) _) (by omega)

lemma solveLoopAux_accept (env : CaptchaEnv) (hocr : env.ocrPresent = true) :
    ∀ j remaining attempt refreshes calls, j < remaining →
      (∀ a, attempt ≤ a → a ≤ attempt + j →
        env.imgPresent a = true ∧ imgData env a ≠ none) →
      (∀ a, attempt ≤ a → a < attempt + j → (digitFilter (env.ocrRaw a)).length ≠ 4) →
      (digitFilter (env.ocrRaw (attempt + j))).length = 4 →
      solveLoopAux env remaining attempt refreshes calls =
        ⟨digitFilter (env.ocrRaw (attempt + j)), refreshes + j, calls + j + 1⟩ := by
  intro j
  induction j with
  | zero =>
    intro remaining attempt refreshes calls hlt himg hrej hacc
    obtain ⟨r, rfl⟩ : ∃ r, remaining = r + 1 := ⟨remaining - 1, by omega⟩
    obtain ⟨hi, hd⟩ := himg attempt le_rfl (by omega)
    have hd2 : imgData env attempt = some () := by
      cases h : imgData env attempt with
      | none => exact absurd h hd
      | some u => cases u; rfl
    have hacc2 : (digitFilter (env.ocrRaw attempt)).length = 4 := by simpa using hacc
    simp [solveLoopAux, hi, hd2, hocr, hacc2]
  | succ n ih =>
    intro remaining attempt refreshes calls hlt himg hrej hacc
    obtain ⟨r, rfl⟩ : ∃ r, remaining = r + 1 := ⟨remaining - 1, by omega⟩
    obtain ⟨hi, hd⟩ := himg attempt le_rfl (by omega)
    have hd2 : imgData env attempt = some () := by
      cases h : imgData env attempt with
      | none => exact absurd h hd
      | some u => cases u; rfl
    have hrej2 : (digitFilter (env.ocrRaw attempt)).length ≠ 4 :=
      hrej attempt le_rfl (by omega)
    have step := ih r (attempt + 1) (refreshes + 1) (calls + 1) (by omega)
      (fun a ha1 ha2 => himg a (by omega) (by omega))
      (fun a ha1 ha2 => hrej a (by omega) (by omega))
      (by rw [show attempt + 1 + n = attempt + (n + 1) by omega]; exact hacc)
    rw [show attempt + 1 + n = attempt + (n + 1) by omega] at step
    simp [solveLoopAux, hi, hd2, hocr, hrej2, step]
    constructor <;> omega

/-! ## Theorems -/

/-- C7: if the initial navigation to the login entry point faults,
`login_with_retry` returns false immediately, with zero
credential-submission attempts and a single (unretried) navigation. -/
theorem c7_navigation_fault_fails_fast (navDur : ℕ) (bodySuccess : ℕ → Bool)
    (bodyDur : ℕ → ℕ) (max_attempts total_timeout : ℕ) :
    login_with_retry ⟨true, navDur, bodySuccess, bodyDur⟩ max_attempts total_timeout =
      ⟨false, 0, 1⟩ :=
  rfl

/-- C8: `run_guarded` releases the exclusion guard on every exit path: for
every bound-task behaviour, including an internal fault, the call never
propagates the fault, leaves the guard free, and a subsequent trigger can
then acquire the guard and run. -/
theorem c8_guard_release (t₁ t₂ : TaskBeh) :
    ∃ r₁ r₂, run_guarded false t₁ = .ok r₁ ∧ r₁.ran = true ∧ r₁.lockAfter = false ∧
      run_guarded r₁.lockAfter t₂ = .ok r₂ ∧ r₂.ran = true ∧ r₂.lockAfter = false := by
  refine ⟨⟨true, false⟩, ⟨true, false⟩, ?_, rfl, rfl, ?_, rfl, rfl⟩ <;>
    cases t₁ <;> cases t₂ <;> rfl

/-- C9: notification delivery is best-effort: a missing WXPush base URL or
token, and a missing WxPusher app token or uid, give zero sink calls and a
normal return; and for every sink behaviour (including one that fails or
raises on every attempt) neither sender ever propagates a fault to the
caller. -/
theorem c9_notification_best_effort :
    (∀ tok uid sink m, send_wxpush none tok uid sink m = .ok ⟨0, false⟩) ∧
    (∀ url uid sink m, send_wxpush url none uid sink m = .ok ⟨0, false⟩) ∧
    (∀ uid sink m, send_wxpusher "" uid sink m = .ok ⟨0, false⟩) ∧
    (∀ tok sink m, send_wxpusher tok "" sink m = .ok ⟨0, false⟩) ∧
    (∀ url tok uid sink m, ∃ r, send_wxpush url tok uid sink m = .ok r) ∧
    (∀ tok uid sink m, ∃ r, send_wxpusher tok uid sink m = .ok r) := by
  refine ⟨fun tok uid sink m => by simp [send_wxpush, rstripSlash],
    fun url uid sink m => by simp [send_wxpush],
    fun uid sink m => by simp [send_wxpusher],
    fun tok sink m => by simp [send_wxpusher],
    fun url tok uid sink m => ?_, fun tok uid sink m => ?_⟩
  · unfold send_wxpush
    by_cases h : rstripSlash (url.getD "") = "" ∨ tok.getD "" = ""
    · exact ⟨⟨0, false⟩, by simp [h]⟩
    · obtain ⟨r, hr⟩ := pushLoopAux_ok sink m m 1
      exact ⟨r, by simp [h, hr]⟩
  · unfold send_wxpusher
    by_cases h : tok = "" ∨ uid = ""
    · exact ⟨⟨0, false⟩, by simp [h]⟩
    · obtain ⟨r, hr⟩ := pushLoopAux_ok sink m m 1
      exact ⟨r, by simp [h, hr]⟩

/-- C2 counterexample: the wall-clock deadline of `login_with_retry` is
measured from function entry, not from entry into the PageLoaded state.
With `max_attempts = 10, total_timeout = 300`, a navigation that itself
consumes the whole 300-unit budget, and attempt bodies that would succeed
instantly, the code performs zero attempts and fails — whereas under the
claim's deadline (measured from completion of the navigation) the first
attempt would run and succeed. -/
theorem c2_deadline_counterexample :
    login_with_retry slowNavEnv 10 300 = ⟨false, 0, 1⟩ ∧
    login_with_retry_specDeadline slowNavEnv 10 300 = ⟨true, 1, 1⟩ :=
  ⟨rfl, rfl⟩

/-- C5 counterexample: the delay the retry wrapper computes for attempt 3
with `delay_seconds = 2, backoff_factor = 3/2` is `max(1, int(2 * (3/2)^2))
= 4`, while the claimed formula `max(1, baseDelay * factor^(attempt-1))`
gives `9/2`: the code truncates the product to an integer before the max. -/
theorem c5_formula_counterexample :
    ((wait_seconds 2 (3/2) 3 : ℤ) : ℚ) ≠ specDelay 2 (3/2) 3 := by
  have h1 : ((2 : ℤ) : ℚ) * (3/2 : ℚ) ^ (3 - 1) = 9/2 := by norm_num
  have h2 : pyTrunc (9/2 : ℚ) = 4 := by
    unfold pyTrunc
    rw [if_pos (by norm_num), Int.floor_eq_iff]
    norm_num
  have h3 : wait_seconds 2 (3/2) 3 = 4 := by
    rw [wait_seconds, h1, h2]
    rfl
  have h4 : specDelay 2 (3/2) 3 = 9/2 := by
    rw [specDelay, h1]
    rw [max_eq_right (by norm_num)]
  rw [h3, h4]
  norm_num

/-- C5 amended: the backoff delay for 1-based attempt `a` equals
`max(1, int(baseDelay * factor^(a-1)))` — the real-valued product truncated
toward zero, as Python's `int()` does — it is at least 1 time unit for every
attempt index, and for `factor ≥ 1` it is monotonically non-decreasing in
the attempt index. -/
theorem c5_backoff_properties (d : ℤ) (f : ℚ) (a b : ℕ) (hf : 1 ≤ f) (hab : a ≤ b) :
    wait_seconds d f a = max 1 (pyTrunc ((d : ℚ) * f ^ (a - 1))) ∧
    1 ≤ wait_seconds d f a ∧
    wait_seconds d f a ≤ wait_seconds d f b := by
  refine ⟨rfl, le_max_left _ _, ?_⟩
  by_cases hd : 0 ≤ d
  · have hpow : f ^ (a - 1) ≤ f ^ (b - 1) :=
      pow_le_pow_right₀ hf (Nat.sub_le_sub_right hab 1)
    have hmul : (d : ℚ) * f ^ (a - 1) ≤ (d : ℚ) * f ^ (b - 1) :=
      mul_le_mul_of_nonneg_left hpow (by exact_mod_cast hd)
    exact max_le_max le_rfl (pyTrunc_mono hmul)
  · have hd0 : (d : ℚ) ≤ 0 := by exact_mod_cast le_of_not_le hd
    have hf0 : (0 : ℚ) ≤ f := le_trans zero_le_one hf
    have key : ∀ n : ℕ, wait_seconds d f n = 1 := by
      intro n
      have hq : (d : ℚ) * f ^ (n - 1) ≤ 0 :=
        mul_nonpos_of_nonpos_of_nonneg hd0 (pow_nonneg hf0 _)
      unfold wait_seconds
      exact max_eq_left (le_trans (pyTrunc_nonpos hq) zero_le_one)
    rw [key a, key b]

lemma retryLoopAux_allFail (task : ℕ → TaskOutcome) (d : ℤ) (f : ℚ) (attempts : ℕ)
    (hfail : ∀ i, attemptResult task i = false) :
    ∀ remaining attempt calls waits, ∃ w,
      retryLoopAux task d f attempts (remaining + 1) attempt calls waits =
        Except.ok ⟨false, attempts, calls + remaining + 1, w⟩ := by
  intro remaining
  induction remaining with
  | zero =>
    intro attempt calls waits
    exact ⟨waits, by simp [retryLoopAux, hfail]⟩
  | succ n ih =>
    intro attempt calls waits
    obtain ⟨w, hw⟩ := ih (attempt + 1) (calls + 1) (waits ++ [wait_seconds d f attempt])
    refine ⟨w, ?_⟩
    rw [show calls + (n + 1) + 1 = (calls + 1) + n + 1 by omega]
    simpa [retryLoopAux, hfail] using hw

lemma retryLoopAux_firstSuccess (task : ℕ → TaskOutcome) (d : ℤ) (f : ℚ) (attempts : ℕ) :
    ∀ j remaining attempt calls waits, j < remaining →
      (∀ a, attempt ≤ a → a < attempt + j → attemptResult task a = false) →
      attemptResult task (attempt + j) = true →
      ∃ w, retryLoopAux task d f attempts remaining attempt calls waits =
        Except.ok ⟨true, attempt + j, calls + j + 1, w⟩ := by
  intro j
  induction j with
  | zero =>
    intro remaining attempt calls waits hlt _hfail hsucc
    obtain ⟨r, rfl⟩ : ∃ r, remaining = r + 1 := ⟨remaining - 1, by omega⟩
    have hs : attemptResult task attempt = true := by simpa using hsucc
    exact ⟨waits, by simp [retryLoopAux, hs]⟩
  | succ n ih =>
    intro remaining attempt calls waits hlt hfail hsucc
    obtain ⟨r, rfl⟩ : ∃ r, remaining = r + 1 := ⟨remaining - 1, by omega⟩
    have hr : n < r := by omega
    have hfa : attemptResult task attempt = false := hfail attempt le_rfl (by omega)
    have hr0 : r ≠ 0 := by omega
    obtain ⟨w, hw⟩ := ih r (attempt + 1) (calls + 1)
      (waits ++ [wait_seconds d f attempt]) hr
      (fun a ha1 ha2 => hfail a (by omega) (by omega))
      (by rw [show attempt + 1 + n = attempt + (n + 1) by omega]; exact hsucc)
    refine ⟨w, ?_⟩
    rw [show attempt + (n + 1) = attempt + 1 + n by omega,
      show calls + (n + 1) + 1 = (calls + 1) + n + 1 by omega]
    simpa [retryLoopAux, hfa, hr0] using hw

/-- C3: for every `N ≥ 1`, `run_with_retries` with `max_attempts = N` and a
task that on every invocation reports failure or raises returns
`succeeded = false, attemptsUsed = N`, invokes the task exactly `N` times,
and propagates no fault to the caller (the result is an `ok`, never an
`error`); a raising task is treated identically to a failing one by
`attemptResult`. -/
theorem c3_retry_exhaustion (task : ℕ → TaskOutcome) (N : ℕ) (hN : 1 ≤ N)
    (hfail : ∀ i, attemptResult task i = false) (d : ℤ) (f : ℚ) :
    (run_with_retries task (N : ℤ) d f).map
      (fun r => (r.succeeded, r.attemptsUsed, r.calls)) =
      Except.ok (false, N, N) := by
  have hmax : (max 1 (N : ℤ)).toNat = N := by omega
  obtain ⟨n, rfl⟩ : ∃ n, N = n + 1 := ⟨N - 1, by omega⟩
  obtain ⟨w, hw⟩ := retryLoopAux_allFail task d f (n + 1) hfail n 1 0 []
  unfold run_with_retries
  rw [hmax, hw]
  simp [Except.map]

/-- C3 witness: a task that raises on every invocation, with
`max_attempts = 2`, gives `succeeded = false, attemptsUsed = 2`, exactly 2
invocations, and no propagated fault. -/
theorem c3_retry_exhaustion_witness :
    (run_with_retries (fun _ => TaskOutcome.raise) ((2 : ℕ) : ℤ) 60 1).map
      (fun r => (r.succeeded, r.attemptsUsed, r.calls)) =
      Except.ok (false, 2, 2) :=
  c3_retry_exhaustion (fun _ => TaskOutcome.raise) 2 (by norm_num) (fun i => rfl) 60 1

/-- C6: for every `k` with `1 ≤ k ≤ max_attempts`, `run_with_retries` with a
task that fails on attempts `1..k-1` and succeeds on attempt `k` returns
`succeeded = true, attemptsUsed = k`, having invoked the task exactly `k`
times (it returns on the first success). -/
theorem c6_retry_early_success (task : ℕ → TaskOutcome) (N k : ℕ)
    (hk1 : 1 ≤ k) (hkN : k ≤ N)
    (hfail : ∀ i, 1 ≤ i → i < k → attemptResult task i = false)
    (hsucc : attemptResult task k = true) (d : ℤ) (f : ℚ) :
    (run_with_retries task (N : ℤ) d f).map
      (fun r => (r.succeeded, r.attemptsUsed, r.calls)) =
      Except.ok (true, k, k) := by
  have hmax : (max 1 (N : ℤ)).toNat = N := by omega
  obtain ⟨w, hw⟩ := retryLoopAux_firstSuccess task d f N (k - 1) N 1 0 []
    (by omega) (fun a ha1 ha2 => hfail a ha1 (by omega))
    (by rw [show 1 + (k - 1) = k by omega]; exact hsucc)
  unfold run_with_retries
  rw [hmax, hw]
  simp [Except.map, show 1 + (k - 1) = k by omega, show (k - 1) + 1 = k by omega]

/-- C6 witness: a task failing on attempt 1 and succeeding on attempt 2,
with `max_attempts = 3`, returns `succeeded = true, attemptsUsed = 2` after
exactly 2 invocations. -/
theorem c6_retry_early_success_witness :
    (run_with_retries (fun i => TaskOutcome.ok (decide (2 ≤ i))) ((3 : ℕ) : ℤ) 60 1).map
      (fun r => (r.succeeded, r.attemptsUsed, r.calls)) =
      Except.ok (true, 2, 2) :=
  c6_retry_early_success (fun i => TaskOutcome.ok (decide (2 ≤ i))) 3 2
    (by norm_num) (by norm_num)
    (fun i h1 h2 => by
      have : i = 1 := by omega
      subst this
      rfl)
    rfl 60 1

/-- C5 witness: at `delay_seconds = 60, factor = 2, attempts 1 ≤ 2` the
amended properties hold concretely. -/
theorem c5_backoff_properties_witness :
    (1 : ℚ) ≤ 2 ∧ (1 : ℕ) ≤ 2 ∧
    (wait_seconds 60 2 1 = max 1 (pyTrunc ((60 : ℤ) * (2 : ℚ) ^ (1 - 1))) ∧
      1 ≤ wait_seconds 60 2 1 ∧
      wait_seconds 60 2 1 ≤ wait_seconds 60 2 2) :=
  ⟨by norm_num, by norm_num, c5_backoff_properties 60 2 1 2 (by norm_num) (by norm_num)⟩

/-- C2 amended: in `login_with_retry` the attempt loop is bounded by both
`max_attempts` and `total_timeout`, the wall-clock deadline being measured
from entry into the function — before the initial navigation, whose
duration (`clockAfter env 0 = env.navDur`) is charged against the budget.
Starting attempt `a+1` requires both `a < max_attempts` and
`clockAfter env a < total_timeout`, and a false verdict means the attempt
counter or the deadline was exhausted at the final loop check. -/
theorem c2_dual_bound (env : LoginEnv) (max_attempts total_timeout : ℕ)
    (hnav : env.navFails = false) :
    (login_with_retry env max_attempts total_timeout).attempts ≤ max_attempts ∧
    (∀ a, a < (login_with_retry env max_attempts total_timeout).attempts →
      a < max_attempts ∧ clockAfter env a < total_timeout) ∧
    ((login_with_retry env max_attempts total_timeout).ok = false →
      (login_with_retry env max_attempts total_timeout).attempts = max_attempts ∨
      total_timeout ≤
        clockAfter env (login_with_retry env max_attempts total_timeout).attempts) := by
  rcases hr : loginLoopAux env total_timeout max_attempts 0 env.navDur with ⟨res, n⟩
  have hr0 : loginLoopAux env total_timeout max_attempts 0 (clockAfter env 0) =
      (res, n) := hr
  obtain ⟨⟨_, hb⟩, hall, hfalse⟩ :=
    loginLoopAux_spec env total_timeout max_attempts 0 res n hr0
  have hlog : login_with_retry env max_attempts total_timeout = ⟨res, n, 1⟩ := by
    unfold login_with_retry
    rw [hnav]
    simp [hr]
  rw [hlog]
  refine ⟨by simpa using hb, ?_, ?_⟩
  · intro a ha
    simpa using hall a (by omega) (by simpa using ha)
  · intro hres
    simpa using hfalse (by simpa using hres)

/-- C2 witness: with a navigation taking 1 unit, attempt bodies taking 1
unit that never succeed, `max_attempts = 2` and `total_timeout = 100`, the
amended dual-bound properties hold concretely. -/
theorem c2_dual_bound_witness :
    (login_with_retry steadyFailEnv 2 100).attempts ≤ 2 ∧
    (∀ a, a < (login_with_retry steadyFailEnv 2 100).attempts →
      a < 2 ∧ clockAfter steadyFailEnv a < 100) ∧
    ((login_with_retry steadyFailEnv 2 100).ok = false →
      (login_with_retry steadyFailEnv 2 100).attempts = 2 ∨
      100 ≤ clockAfter steadyFailEnv (login_with_retry steadyFailEnv 2 100).attempts) :=
  c2_dual_bound steadyFailEnv 2 100 rfl

/-- C1 counterexample: the per-script `login_unlimited` (cited by the claim
for both `auto_checkin.py` and `auto_daily_report.py`) does not terminate
for every collaborator response sequence: with a page that always serves a
clean captcha but never changes URL, no finite number of loop iterations
produces a verdict. -/
theorem c1_login_unlimited_diverges : ¬ UnlimTerminates stubbornEnv := by
  intro h
  obtain ⟨fuel, hf⟩ := h
  unfold login_unlimited at hf
  rw [unlimLoop_stubborn] at hf
  exact absurd hf (by decide)

/-- C1 amended: the shared-core operations of `common.py` are bounded and
terminate for every collaborator response sequence — `solve_captcha` makes
at most `max_attempts` classifier calls, `login_with_retry` performs at
most `max_attempts` credential-submission attempts, and `run_with_retries`
invokes its task at most `max(1, max_attempts)` times; the per-script
`login_unlimited` carries no such bound (see the counterexample). -/
theorem c1_core_bounded (cenv : CaptchaEnv) (m : ℕ) (lenv : LoginEnv)
    (max_attempts total_timeout : ℕ) (task : ℕ → TaskOutcome) (N d : ℤ) (f : ℚ) :
    (solve_captcha cenv m).ocrCalls ≤ m ∧
    (login_with_retry lenv max_attempts total_timeout).attempts ≤ max_attempts ∧
    callsOf (run_with_retries task N d f) ≤ (max 1 N).toNat := by
  refine ⟨?_, ?_, ?_⟩
  · unfold solve_captcha
    split
    · simpa using solveLoopAux_calls_le cenv m 0 0 0
    · simp
  · by_cases hnav : lenv.navFails = true
    · simp [login_with_retry, hnav]
    · rcases hr : loginLoopAux lenv total_timeout max_attempts 0 lenv.navDur with ⟨res, n⟩
      have hr0 : loginLoopAux lenv total_timeout max_attempts 0 (clockAfter lenv 0) =
          (res, n) := hr
      obtain ⟨⟨_, hb⟩, _, _⟩ :=
        loginLoopAux_spec lenv total_timeout max_attempts 0 res n hr0
      simp only [login_with_retry, hnav, if_false, hr, Bool.false_eq_true]
      simpa using hb
  · have h := retryLoopAux_calls_le task d f (max 1 N).toNat (max 1 N).toNat 1 0 []
    show callsOf (retryLoopAux task d f (max 1 N).toNat (max 1 N).toNat 1 0 []) ≤
      (max 1 N).toNat
    omega

/-- C4: `common.py` `solve_captcha` rejects every classifier output whose
digit-filtered form is not exactly 4 characters, triggering exactly one
challenge refresh per rejection (refresh count `j` after `j` rejections),
and on the first attempt whose filtered output has length 4 it returns
that filtered string — in particular, with a classifier that is valid on
the first attempt (`j = 0`) it returns on the first attempt with zero
refreshes. -/
theorem c4_challenge_validation (env : CaptchaEnv) (m j : ℕ)
    (hsel : env.selectorFound = true) (hocr : env.ocrPresent = true) (hj : j < m)
    (himg : ∀ a, a ≤ j → env.imgPresent a = true ∧ imgData env a ≠ none)
    (hrej : ∀ a, a < j → (digitFilter (env.ocrRaw a)).length ≠ 4)
    (hacc : (digitFilter (env.ocrRaw j)).length = 4) :
    solve_captcha env m = ⟨digitFilter (env.ocrRaw j), j, j + 1⟩ := by
  have step := solveLoopAux_accept env hocr j m 0 0 0 hj
    (fun a ha1 ha2 => himg a (by omega))
    (fun a ha1 ha2 => hrej a (by omega))
    (by simpa using hacc)
  unfold solve_captcha
  rw [if_pos hsel]
  simpa using step

/-- C4 witness: with a classifier reading "12a" (filters to 3 digits) on
attempt 0 and "5678" on attempt 1, `solve_captcha` with 3 attempts returns
"5678" after exactly one refresh and two classifier calls. -/
theorem c4_challenge_validation_witness :
    solve_captcha mixedCaptchaEnv 3 =
      ⟨digitFilter (mixedCaptchaEnv.ocrRaw 1), 1, 2⟩ :=
  c4_challenge_validation mixedCaptchaEnv 3 1 rfl rfl (by norm_num)
    (fun a ha => ⟨rfl, by simp [imgData, mixedCaptchaEnv]⟩)
    (fun a ha => by
      have h0 : a = 0 := by omega
      subst h0
      decide)
    (by decide)

/-- C10: the per-script captcha solvers return the classifier's raw output
with no validation: with a classifier present and the image acquired, the
returned string is exactly the classifier's output — no digit filtering
and no length-4 check — and in `login_unlimited` any non-empty captcha
string leads to a submission on that very attempt. -/
theorem c10_raw_classifier_output (env : ScriptCaptchaEnv) (s : String)
    (hsel : env.selectorOk = true) (himg : env.imgPresent = true)
    (hsrc : env.src = some s) (hpre : pyStartsWith s "data:image" = true)
    (hocr : env.ocrPresent = true)
    (uenv : UnlimEnv) (hfault : uenv.bodyFaults 1 = false)
    (hcap : uenv.captcha 1 ≠ "") :
    AutoCheckin.solve_captcha env = env.ocrRaw ∧
    AutoDailyReport.solve_captcha env = env.ocrRaw ∧
    (unlimBody uenv 1).2 = true := by
  refine ⟨?_, ?_, ?_⟩
  · simp [AutoCheckin.solve_captcha, hsel, himg, hsrc, hpre, hocr]
  · simp [AutoDailyReport.solve_captcha, hsel, himg, hsrc, hpre, hocr]
  · cases h : uenv.urlChanged 1 <;> simp [unlimBody, hfault, hcap, h]

/-- C10 witness: a classifier guess "ab12!" (non-digits, wrong length) is
returned verbatim by both per-script solvers and, being non-empty, is
submitted on the first `login_unlimited` attempt. -/
theorem c10_raw_classifier_output_witness :
    AutoCheckin.solve_captcha oddCaptchaEnv = oddCaptchaEnv.ocrRaw ∧
    AutoDailyReport.solve_captcha oddCaptchaEnv = oddCaptchaEnv.ocrRaw ∧
    (unlimBody submitEnv 1).2 = true :=
  c10_raw_classifier_output oddCaptchaEnv "data:image/png;base64,AAA" rfl rfl rfl
    (by decide) rfl submitEnv rfl (by decide)

end JX
